import Mathlib

/-!
Verification development for the `streamlit_app.py` dashboard pipeline.

Shallow embedding conventions:
* Timestamps are calendar dates (`Date`), compared through the injective,
  monotone key `Date.toNat` (pandas timestamps at midnight compare exactly
  like these keys on the dates this program constructs).
* Numeric cells are rationals (`ℚ`); the values this program manipulates and
  the means the spec quotes are exact in both binary floating point and `ℚ`.
* A pandas `DataFrame` is a `Table`: a list of column names plus a list of
  rows, each row a list of `Cell`s.  A missing-column access (`KeyError`) is
  modelled by `Option` results.
* `np.random.uniform` draws and `np.sin` values in the fallback branch are
  parameters of the model (functions `Nat → ℚ`), constrained by hypotheses to
  the intervals that the library guarantees.
-/

/-- A calendar date (pandas `Timestamp` at midnight). -/
structure Date where
  year : Nat
  month : Nat
  day : Nat
deriving Repr, DecidableEq

/-- Order key: comparisons of the timestamps this program builds agree with
comparisons of this key. -/
def Date.toNat (d : Date) : Nat := d.year * 10000 + d.month * 100 + d.day

/-- `a <= b` on timestamps. -/
def Date.le (a b : Date) : Bool := a.toNat ≤ b.toNat

/-- A dataframe cell. -/
inductive Cell where
  | str (s : String)
  | num (q : ℚ)
  | date (d : Date)
deriving Repr, DecidableEq

/-- A dataframe: column names and rows (each row one cell per column). -/
structure Table where
  cols : List String
  rows : List (List Cell)
deriving Repr, DecidableEq

/-- Index of a column by name; `none` models a pandas `KeyError`. -/
def Table.colIdx (t : Table) (c : String) : Option Nat :=
  t.cols.findIdx? (fun x => x == c)

/-- The cells of a named column, `none` on a missing column. -/
def Table.getColCells (t : Table) (c : String) : Option (List Cell) :=
  match t.colIdx c with
  | some i => some (t.rows.map (fun r => r.getD i (Cell.str "")))
  | none => none

/-- Numeric view of a named column (`df[c]` where `c` holds numbers). -/
def Table.getNumCol (t : Table) (c : String) : Option (List ℚ) :=
  match t.getColCells c with
  | some cells => cells.mapM (fun cl => match cl with
      | Cell.num q => some q
      | _ => none)
  | none => none

/-- `df[c] = vals`: append a new column on the right. -/
def Table.addCol (t : Table) (c : String) (vals : List Cell) : Table :=
  { cols := t.cols ++ [c], rows := List.zipWith (fun r v => r ++ [v]) t.rows vals }

/-!  ## Moving-average smoothing

`series.rolling(window=3, min_periods=1).mean()`: entry `i` is the mean of the
trailing window of the last `min (i+1) 3` elements ending at position `i`. -/

/-- The trailing window of length `min (i+1) 3` ending at index `i`. -/
def trailingWindow3 (xs : List ℚ) (i : Nat) : List ℚ :=
  (xs.take (i + 1)).drop (i + 1 - min (i + 1) 3)

/-- `rolling(window=3, min_periods=1).mean()` over a value sequence. -/
def rollingMean3 (xs : List ℚ) : List ℚ :=
  (List.range xs.length).map (fun i =>
    let w := trailingWindow3 xs i
    w.sum / (w.length : ℚ))

/-!  ## Source loader and normalizer (`load_public_data`)

The raw CSV parses into rows carrying a `Country Name` and one cell per year
column.  A cell is recorded after `pd.to_numeric(..., errors='coerce')`:
`some q` when the text coerces to the number `q`, `none` when coercion fails
(the value becomes NaN and `dropna` removes the row). -/

/-- One raw row of the loaded CSV after numeric coercion of the year cells. -/
structure RawRow where
  countryName : String
  cells : Nat → Option ℚ

/-- `df[df['Country Name'] == 'Korea, Rep.']`. -/
def selectKorea (raw : List RawRow) : List RawRow :=
  raw.filter (fun r => r.countryName == "Korea, Rep.")

/-- The year-column labels `1960 .. 2022` (`range(1960, 2023)`). -/
def yearLabels : List Nat := List.range' 1960 63

/-- One normalized GDP row: `{date, gdp}`. -/
structure GdpRow where
  date : Date
  gdp : ℚ
deriving Repr, DecidableEq

/-- Insert an element into a sorted list (comparison sort helper). -/
def insertBy {α : Type} (le : α → α → Bool) (a : α) : List α → List α
  | [] => [a]
  | b :: l => if le a b then a :: b :: l else b :: insertBy le a l

/-- Comparison sort (models pandas `sort_values` / sorted `groupby` keys:
any correct comparison sort; keys are distinct at every use site). -/
def sortBy {α : Type} (le : α → α → Bool) : List α → List α
  | [] => []
  | a :: l => insertBy le a (sortBy le l)

/-- `sort_values('date')`. -/
def sortByDate (rows : List GdpRow) : List GdpRow :=
  sortBy (fun a b => a.date.toNat ≤ b.date.toNat) rows

/-- Normalized GDP rows from the single Korea row: transpose the year columns
into `{date, gdp}` rows (date parsed from the 4-digit label as January 1),
drop rows whose gdp cell failed numeric coercion, drop rows dated after the
current date, and sort ascending by date. -/
def gdpRows (kr : RawRow) (now : Date) : List GdpRow :=
  sortByDate (yearLabels.filterMap (fun y =>
    (kr.cells y).bind (fun v =>
      if Date.le ⟨y, 1, 1⟩ now then some ⟨⟨y, 1, 1⟩, v⟩ else none)))

/-- The normalized GDP dataframe: columns `['date', 'gdp']`. -/
def gdpTable (kr : RawRow) (now : Date) : Table :=
  { cols := ["date", "gdp"],
    rows := (gdpRows kr now).map (fun r => [Cell.date r.date, Cell.num r.gdp]) }

/-- The month-start dates of `pd.date_range("2022-01-01", "2023-12-31", freq='MS')`. -/
def monthStarts : List Date :=
  (List.range 24).map (fun i => ⟨2022 + i / 12, i % 12 + 1, 1⟩)

/-- Fallback dates: month starts restricted to `<= today`. -/
def fallbackDates (now : Date) : List Date :=
  monthStarts.filter (fun d => Date.le d now)

/-- The synthetic fallback dataframe.  `ut i`, `ur i` stand for the draws
`np.random.uniform(-5, 28)` and `np.random.uniform(10, 350)`, and `sn i` for
`np.sin(i * π / 6)`; they are parameters of the model. -/
def fallbackTable (now : Date) (ut ur sn : Nat → ℚ) : Table :=
  { cols := ["date", "value_temp", "value_rain"],
    rows := (List.range (fallbackDates now).length).map (fun i =>
      [Cell.date ((fallbackDates now).getD i ⟨0, 0, 0⟩),
       Cell.num (ut i + sn i * 10),
       Cell.num (ur i * (sn i ^ 2 + 1 / 10))]) }

/-- `load_public_data`: `input = none` models a file that cannot be read or
decoded; `some raw` the parsed CSV.  The try-block normalizes; any failure in
it (including the reshape failing because the country match is not a single
row) falls back to the synthetic table with success flag `false`. -/
def load_public_data (input : Option (List RawRow)) (now : Date)
    (ut ur sn : Nat → ℚ) : Table × Bool :=
  match input with
  | none => (fallbackTable now ut ur sn, false)
  | some raw =>
    match selectKorea raw with
    | [kr] => (gdpTable kr now, true)
    | _ => (fallbackTable now ut ur sn, false)

/-!  ## Tab-1 filter pipeline -/

/-- Year-range mask on one row: the row's `date` cell has a year in `[a, b]`. -/
def rowYearIn (i : Nat) (a b : Nat) (r : List Cell) : Bool :=
  match r.getD i (Cell.str "") with
  | Cell.date d => decide (a ≤ d.year) && decide (d.year ≤ b)
  | _ => false

/-- `df[(df['date'].dt.year >= a) & (df['date'].dt.year <= b)]`.  `none`
models the `KeyError` on a table without a `date` column (never reached on
the tables this program builds). -/
def filterYearT (t : Table) (a b : Nat) : Option Table :=
  match t.colIdx "date" with
  | some i => some { cols := t.cols, rows := t.rows.filter (rowYearIn i a b) }
  | none => none

/-- The smoothing block guarded by the checkbox: attach
`value_temp_smooth` and `value_rain_smooth` columns; `none` models the
uncaught `KeyError` when the accessed column is absent. -/
def applySmoothing (t : Table) : Option Table :=
  match t.getNumCol "value_temp" with
  | none => none
  | some temps =>
    match (t.addCol "value_temp_smooth"
        ((rollingMean3 temps).map Cell.num)).getNumCol "value_rain" with
    | none => none
    | some rains =>
      some ((t.addCol "value_temp_smooth"
        ((rollingMean3 temps).map Cell.num)).addCol "value_rain_smooth"
          ((rollingMean3 rains).map Cell.num))

/-- The tab-1 view pipeline on the cached table: year-range filter, then the
optional smoothing pass.  The first component is the derived view (`none` on
an uncaught exception); the second is the cached source table after the run —
boolean-mask indexing copies, so column assignments on the view never touch
the source. -/
def runTab1 (cache : Table) (a b : Nat) (smoothing : Bool) :
    Option Table × Table :=
  match filterYearT cache a b with
  | none => (none, cache)
  | some v => (if smoothing then applySmoothing v else some v, cache)

/-!  ## Export (`to_csv`) -/

/-- Render one CSV field with minimal quoting (`csv.QUOTE_MINIMAL`). -/
def csvQuote (s : String) : String :=
  if s.data.any (fun c => c == ',' || c == '"' || c == '\n') then
    String.mk ('"' :: (s.data.map (fun c =>
      if c = '"' then ['"', '"'] else [c])).flatten ++ ['"'])
  else s

/-- Zero-pad a numeral to two digits. -/
def pad2 (n : Nat) : String :=
  if n < 10 then "0" ++ toString n else toString n

/-- Text of a numeric cell.  (The precise float format pandas emits is
abstracted; no claim depends on the digits of a numeric field.) -/
def numToString (q : ℚ) : String :=
  if q.den = 1 then toString q.num else toString q.num ++ "/" ++ toString q.den

/-- Render a cell as CSV text (dates as `YYYY-MM-DD`). -/
def cellToString : Cell → String
  | Cell.str s => csvQuote s
  | Cell.num q => numToString q
  | Cell.date d => toString d.year ++ "-" ++ pad2 d.month ++ "-" ++ pad2 d.day

/-- Join fields with commas. -/
def csvLine (fields : List String) : String :=
  String.intercalate "," fields

/-- The lines of the exported text: a header naming the columns, then one
delimited line per row of the given table and no others. -/
def csvLines (t : Table) : List String :=
  csvLine (t.cols.map csvQuote) :: t.rows.map (fun r => csvLine (r.map cellToString))

/-- `df.to_csv(index=False)`: every line terminated by a newline. -/
def csvString (t : Table) : String :=
  String.join ((csvLines t).map (fun l => l ++ "\n"))

/-- UTF-8 encoding of one character (bytes as `Nat < 256`). -/
def utf8EncodeChar (c : Char) : List Nat :=
  let n := c.toNat
  if n < 128 then [n]
  else if n < 2048 then [192 + n / 64, 128 + n % 64]
  else if n < 65536 then [224 + n / 4096, 128 + (n / 64) % 64, 128 + n % 64]
  else [240 + n / 262144, 128 + (n / 4096) % 64, 128 + (n / 64) % 64, 128 + n % 64]

/-- UTF-8 encoding of a string. -/
def utf8Encode (s : String) : List Nat :=
  (s.data.map utf8EncodeChar).flatten

/-- UTF-8 decoding (used to state losslessness of the export encoding). -/
def utf8Decode : List Nat → Option (List Char)
  | [] => some []
  | b :: rest =>
    if b < 128 then
      (utf8Decode rest).map (fun cs => Char.ofNat b :: cs)
    else if b < 192 then none
    else if b < 224 then
      match rest with
      | b1 :: rest1 =>
        if 128 ≤ b1 ∧ b1 < 192 then
          (utf8Decode rest1).map (fun cs =>
            Char.ofNat ((b - 192) * 64 + (b1 - 128)) :: cs)
        else none
      | [] => none
    else if b < 240 then
      match rest with
      | b1 :: b2 :: rest2 =>
        if (128 ≤ b1 ∧ b1 < 192) ∧ (128 ≤ b2 ∧ b2 < 192) then
          (utf8Decode rest2).map (fun cs =>
            Char.ofNat ((b - 224) * 4096 + (b1 - 128) * 64 + (b2 - 128)) :: cs)
        else none
      | _ => none
    else
      match rest with
      | b1 :: b2 :: b3 :: rest3 =>
        if (128 ≤ b1 ∧ b1 < 192) ∧ (128 ≤ b2 ∧ b2 < 192) ∧ (128 ≤ b3 ∧ b3 < 192) then
          (utf8Decode rest3).map (fun cs =>
            Char.ofNat ((b - 240) * 262144 + (b1 - 128) * 4096
              + (b2 - 128) * 64 + (b3 - 128)) :: cs)
        else none
      | _ => none

/-- The UTF-8 byte-order marker prepended by the `utf-8-sig` codec. -/
def bomBytes : List Nat := [239, 187, 191]

/-- `df.to_csv(index=False).encode('utf-8-sig')`: BOM followed by the UTF-8
bytes of the CSV text of exactly the given table. -/
def to_csv (t : Table) : List Nat :=
  bomBytes ++ utf8Encode (csvString t)

/-!  ## Static disaster dataset (`load_user_data`) -/

/-- One disaster record after normalization. -/
structure DisasterRow where
  event : String
  year : Nat
  region : String
  group : String
  value : Nat
  unit : String
  date : Date
deriving Repr, DecidableEq

/-- The raw `event` column literal. -/
def userEvents : List String :=
  ["태풍 카눈", "태풍 카눈", "태풍 카눈", "태풍 카눈",
   "전국 폭우", "전국 폭우", "전국 폭우", "전국 폭우", "전국 폭우", "전국 폭우",
   "충북 호우", "충북 호우", "충북 호우"]

/-- The raw `year` column literal. -/
def userYears : List Nat :=
  [2023, 2023, 2023, 2023, 2025, 2025, 2025, 2025, 2025, 2025, 2023, 2023, 2023]

/-- The raw `region` column literal. -/
def userRegions : List String :=
  ["강원", "강원", "강원", "강원",
   "전국", "전국", "전국", "전국", "전국", "전국",
   "충북", "충북", "충북"]

/-- The raw `type` column literal (renamed to `group` by the normalizer). -/
def userTypes : List String :=
  ["휴업", "등교시간 조정", "개학 연기", "원격수업",
   "학사일정 조정", "단축수업", "등교시간 조정", "휴업", "원격수업", "시설 피해",
   "피해 학교·유치원", "등교시간 조정", "원격수업"]

/-- The raw `value` column literal. -/
def userValues : List Nat :=
  [5, 1, 2, 2, 247, 156, 59, 29, 3, 451, 24, 7, 1]

/-- The 13-row dataframe built from the column literals, with the derived
`date` column (`to_datetime(year, format='%Y')` is January 1 of the year)
and the `type` column renamed to `group`. -/
def userBase : List DisasterRow :=
  (List.range 13).map (fun i =>
    { event := userEvents.getD i ""
      year := userYears.getD i 0
      region := userRegions.getD i ""
      group := userTypes.getD i ""
      value := userValues.getD i 0
      unit := "곳"
      date := ⟨userYears.getD i 0, 1, 1⟩ : DisasterRow })

/-- `load_user_data`: returns the fixed table.  It reads the clock only for
a dead `if today.year < 2025` branch whose body is `pass`, so the result is
the same at every call time. -/
def load_user_data (now : Date) : List DisasterRow :=
  if now.year < 2025 then userBase else userBase

/-- `df_user[df_user['event'].isin(selected_events)]`. -/
def filterEvents (rows : List DisasterRow) (sel : List String) : List DisasterRow :=
  rows.filter (fun r => sel.contains r.event)

/-- The disaster table as a dataframe (column order of the source dict plus
the derived `date`). -/
def userTable (rows : List DisasterRow) : Table :=
  { cols := ["event", "year", "region", "group", "value", "unit", "date"],
    rows := rows.map (fun r =>
      [Cell.str r.event, Cell.num (r.year : ℚ), Cell.str r.region,
       Cell.str r.group, Cell.num (r.value : ℚ), Cell.str r.unit,
       Cell.date r.date]) }

/-- Lexicographic order on code points (the order pandas sorts string keys
by). -/
def charListLe : List Char → List Char → Bool
  | [], _ => true
  | _ :: _, [] => false
  | a :: as, b :: bs =>
    if a.toNat < b.toNat then true
    else if b.toNat < a.toNat then false
    else charListLe as bs

/-- Lexicographic order on strings. -/
def strLe (a b : String) : Bool := charListLe a.data b.data

/-- The distinct region keys of a row list, in ascending code-point order
(pandas `groupby` sorts its keys). -/
def regionKeys (rows : List DisasterRow) : List String :=
  sortBy strLe ((rows.map (fun r => r.region)).dedup)

/-- `df[df['region'] != '전국'].groupby('region')['value'].sum()`. -/
def regionTotals (rows : List DisasterRow) : List (String × Nat) :=
  let rs := rows.filter (fun r => !(r.region == "전국"))
  (regionKeys rs).map (fun k =>
    (k, ((rs.filter (fun r => r.region == k)).map (fun r => r.value)).sum))

/-!  ## Sorting helper lemmas -/

theorem insertBy_perm {α : Type} (le : α → α → Bool) (a : α) (l : List α) :
    (insertBy le a l).Perm (a :: l) := by
  induction l with
  | nil => exact List.Perm.refl _
  | cons b l ih =>
    simp only [insertBy]
    split
    · exact List.Perm.refl _
    · exact (ih.cons b).trans (List.Perm.swap a b l)

theorem sortBy_perm {α : Type} (le : α → α → Bool) (l : List α) :
    (sortBy le l).Perm l := by
  induction l with
  | nil => exact List.Perm.refl _
  | cons a l ih => exact (insertBy_perm le a (sortBy le l)).trans (ih.cons a)

theorem mem_insertBy {α : Type} {le : α → α → Bool} {a x : α} {l : List α} :
    x ∈ insertBy le a l ↔ x = a ∨ x ∈ l := by
  rw [(insertBy_perm le a l).mem_iff, List.mem_cons]

theorem pairwise_insertBy {α : Type} {le : α → α → Bool}
    (htot : ∀ x y, le x y = true ∨ le y x = true)
    (htrans : ∀ x y z, le x y = true → le y z = true → le x z = true)
    {l : List α} (a : α) (h : l.Pairwise (fun x y => le x y = true)) :
    (insertBy le a l).Pairwise (fun x y => le x y = true) := by
  induction l with
  | nil => simp [insertBy]
  | cons b l ih =>
    rcases List.pairwise_cons.mp h with ⟨hb, hl⟩
    simp only [insertBy]
    split
    · rename_i hab
      refine List.pairwise_cons.mpr ⟨?_, h⟩
      intro y hy
      rcases List.mem_cons.mp hy with rfl | hy
      · exact hab
      · exact htrans a b y hab (hb y hy)
    · rename_i hab
      refine List.pairwise_cons.mpr ⟨?_, ih hl⟩
      intro y hy
      rcases mem_insertBy.mp hy with rfl | hy
      · rcases htot y b with hyb | hby
        · exact absurd hyb hab
        · exact hby
      · exact hb y hy

theorem pairwise_sortBy {α : Type} {le : α → α → Bool}
    (htot : ∀ x y, le x y = true ∨ le y x = true)
    (htrans : ∀ x y z, le x y = true → le y z = true → le x z = true)
    (l : List α) :
    (sortBy le l).Pairwise (fun x y => le x y = true) := by
  induction l with
  | nil => simp [sortBy]
  | cons a l ih => exact pairwise_insertBy htot htrans a ih

/-- `load_user_data` is the fixed table at every call time: the clock read
feeds a dead branch. -/
theorem load_user_data_eq (now : Date) : load_user_data now = userBase := by
  unfold load_user_data
  split <;> rfl

/-!  ## Claim theorems -/

/-- C3: the trailing moving-average smoothing with window 3 and expanding
window at the start maps `[10, 20, 30, 40]` to exactly `[10, 15, 20, 30]`,
and in general output element `i` is the mean of the last `min (i+1) 3`
input elements ending at position `i`. -/
theorem rolling_mean3_spec (xs : List ℚ) (i : Nat) (h : i < xs.length) :
    rollingMean3 [10, 20, 30, 40] = [10, 15, 20, 30]
    ∧ (rollingMean3 xs).length = xs.length
    ∧ (rollingMean3 xs).getD i 0
        = ((xs.take (i + 1)).drop (i + 1 - min (i + 1) 3)).sum
          / ((min (i + 1) 3 : ℕ) : ℚ) := by
  refine ⟨?_, ?_, ?_⟩
  · norm_num [rollingMean3, trailingWindow3, List.range_succ]
  · simp [rollingMean3]
  · have hlen : i < (List.map
        (fun i => (trailingWindow3 xs i).sum / ((trailingWindow3 xs i).length : ℚ))
        (List.range xs.length)).length := by
      simpa using h
    have hwin : (trailingWindow3 xs i).length = min (i + 1) 3 := by
      simp only [trailingWindow3, List.length_drop, List.length_take]
      omega
    rw [rollingMean3, List.getD_eq_getElem _ _ hlen, List.getElem_map,
      List.getElem_range, hwin]
    rfl

/-- C3 witness: instantiation at `xs = [10, 20, 30, 40]`, `i = 3`. -/
theorem rolling_mean3_spec_witness :
    3 < ([10, 20, 30, 40] : List ℚ).length
    ∧ (rollingMean3 [10, 20, 30, 40]).getD 3 0
        = ((([10, 20, 30, 40] : List ℚ).take (3 + 1)).drop (3 + 1 - min (3 + 1) 3)).sum
          / ((min (3 + 1) 3 : ℕ) : ℚ) := by
  refine ⟨by norm_num, ?_⟩
  exact (rolling_mean3_spec [10, 20, 30, 40] 3 (by norm_num)).2.2

/-- C4: the categorical filter keeps exactly the rows whose event is in the
selected set; the empty selection yields zero rows; selecting only
`태풍 카눈` yields exactly the 4 rows tagged with that event. -/
theorem disaster_event_filter_correct (now : Date) (S : List String) :
    (∀ r, r ∈ filterEvents (load_user_data now) S
        ↔ r ∈ load_user_data now ∧ r.event ∈ S)
    ∧ filterEvents (load_user_data now) [] = []
    ∧ (filterEvents (load_user_data now) ["태풍 카눈"]).length = 4
    ∧ (∀ r ∈ filterEvents (load_user_data now) ["태풍 카눈"], r.event = "태풍 카눈")
    ∧ filterEvents (load_user_data now) ["태풍 카눈"]
        = (load_user_data now).filter (fun r => r.event == "태풍 카눈") := by
  rw [load_user_data_eq]
  refine ⟨?_, by decide, by decide, by decide, by decide⟩
  intro r
  simp [filterEvents, List.mem_filter, List.contains_iff_exists_mem_beq,
    eq_comm]

/-- C9: summing `value` by region after excluding `전국` gives the totals
`강원 ↦ 10`, `충북 ↦ 32`, and those totals sum to the dataset total minus
the `전국` rows' total. -/
theorem region_aggregation_correct (now : Date) :
    regionTotals (load_user_data now) = [("강원", 10), ("충북", 32)]
    ∧ ((regionTotals (load_user_data now)).map Prod.snd).sum = 42
    ∧ ((load_user_data now).map (fun r => r.value)).sum = 987
    ∧ (((load_user_data now).filter (fun r => r.region == "전국")).map
        (fun r => r.value)).sum = 945
    ∧ ((regionTotals (load_user_data now)).map Prod.snd).sum
        = ((load_user_data now).map (fun r => r.value)).sum
          - (((load_user_data now).filter (fun r => r.region == "전국")).map
              (fun r => r.value)).sum := by
  rw [load_user_data_eq]
  exact ⟨by decide, by decide, by decide, by decide, by decide⟩

/-- C10: the static disaster dataset has 13 rows at every call time,
including the six year-2025 rows, with `date` = January 1 of `year` and the
`group` column carrying the raw `type` values; the result is independent of
the clock. -/
theorem static_dataset_time_independent (now now₂ : Date) :
    load_user_data now = load_user_data now₂
    ∧ (load_user_data now).length = 13
    ∧ ((load_user_data now).filter (fun r => r.year == 2025)).length = 6
    ∧ (∀ r ∈ load_user_data now, r.date = ⟨r.year, 1, 1⟩)
    ∧ (load_user_data now).map (fun r => r.group) = userTypes
    ∧ (load_user_data now).map (fun r => r.event) = userEvents := by
  rw [load_user_data_eq, load_user_data_eq]
  exact ⟨rfl, by decide, by decide, by decide, by decide, by decide⟩

/-- C2 (failing-input evaluation): on every successfully normalized GDP
table — schema `['date', 'gdp']` — running the tab-1 pipeline with the
smoothing flag enabled hits the missing `value_temp` column and aborts with
an uncaught `KeyError` (modelled by `none`) instead of attaching a smoothed
column. -/
theorem smoothing_keyerror_on_gdp_schema (kr : RawRow) (now : Date) (a b : Nat) :
    (runTab1 (gdpTable kr now) a b true).1 = none := rfl

/-- Year-range filtering never changes the column set. -/
theorem filterYearT_cols {t v : Table} {a b : Nat}
    (h : filterYearT t a b = some v) : v.cols = t.cols := by
  unfold filterYearT at h
  split at h
  · cases h
    rfl
  · exact absurd h (by simp)

/-- When the smoothing pass succeeds it appends exactly the two smoothed
columns, on the right of the existing ones. -/
theorem applySmoothing_cols {t t' : Table}
    (h : applySmoothing t = some t') :
    t'.cols = t.cols ++ ["value_temp_smooth", "value_rain_smooth"] := by
  unfold applySmoothing at h
  split at h
  · exact absurd h (by simp)
  · split at h
    · exact absurd h (by simp)
    · cases h
      simp [Table.addCol]

/-- C8: the tab-1 pipeline leaves the cached source table exactly as it was
(boolean-mask indexing copies, and column assignment happens on the copy);
the smoothed columns appear only on the derived view. -/
theorem filter_no_mutation (cache : Table) (a b : Nat) (sm : Bool) :
    (runTab1 cache a b sm).2 = cache
    ∧ (∀ v, (runTab1 cache a b sm).1 = some v →
        v.cols = cache.cols
          ++ (if sm then ["value_temp_smooth", "value_rain_smooth"] else [])) := by
  constructor
  · unfold runTab1
    rcases filterYearT cache a b with _ | v
    · rfl
    · rfl
  · intro v hv
    unfold runTab1 at hv
    rcases hf : filterYearT cache a b with _ | w <;> rw [hf] at hv
    · exact absurd hv (by simp)
    · cases sm with
      | false =>
        simp only [Bool.false_eq_true, if_false] at hv ⊢
        cases hv
        simpa using filterYearT_cols hf
      | true =>
        simp only [if_true] at hv ⊢
        rw [applySmoothing_cols hv, filterYearT_cols hf]

/-- An empty source table with the fallback schema, used to instantiate the
pipeline theorems on an input where the smoothing pass succeeds. -/
def emptyClimateTable : Table :=
  { cols := ["date", "value_temp", "value_rain"], rows := [] }

/-- The view the pipeline derives from `emptyClimateTable` with smoothing. -/
def emptyClimateView : Table :=
  { cols := ["date", "value_temp", "value_rain",
             "value_temp_smooth", "value_rain_smooth"], rows := [] }

/-- C8 witness: the pipeline run on a concrete table with smoothing enabled
returns the source unchanged and a view carrying the two extra columns. -/
theorem filter_no_mutation_witness :
    (runTab1 emptyClimateTable 2022 2023 true).2 = emptyClimateTable
    ∧ (runTab1 emptyClimateTable 2022 2023 true).1 = some emptyClimateView
    ∧ emptyClimateView.cols
        = emptyClimateTable.cols
          ++ (if true then ["value_temp_smooth", "value_rain_smooth"] else []) := by
  refine ⟨(filter_no_mutation emptyClimateTable 2022 2023 true).1, rfl, ?_⟩
  exact (filter_no_mutation emptyClimateTable 2022 2023 true).2 emptyClimateView rfl

/-- C6: on an unreadable input the loader returns `success = false` and the
synthetic fallback table: one row per month-start date from 2022-01 through
2023-12 that does not exceed the current date, each row carrying two bounded
numeric metrics. -/
theorem loader_fallback_correct (now : Date) (ut ur sn : Nat → ℚ)
    (hut : ∀ i, -5 ≤ ut i ∧ ut i < 28)
    (hur : ∀ i, 10 ≤ ur i ∧ ur i < 350)
    (hsn : ∀ i, -1 ≤ sn i ∧ sn i ≤ 1) :
    (load_public_data none now ut ur sn).2 = false
    ∧ (load_public_data none now ut ur sn).1.rows.length = (fallbackDates now).length
    ∧ ((load_public_data none now ut ur sn).1.rows.map (fun r => r.getD 0 (Cell.str "")))
        = (fallbackDates now).map Cell.date
    ∧ (∀ d : Date, d ∈ fallbackDates now ↔ d ∈ monthStarts ∧ Date.le d now = true)
    ∧ (∀ d : Date, d ∈ monthStarts
        ↔ 2022 ≤ d.year ∧ d.year ≤ 2023 ∧ 1 ≤ d.month ∧ d.month ≤ 12 ∧ d.day = 1)
    ∧ (∀ r ∈ (load_public_data none now ut ur sn).1.rows, ∃ d x y,
        r = [Cell.date d, Cell.num x, Cell.num y]
          ∧ -15 ≤ x ∧ x < 38 ∧ 1 ≤ y ∧ y < 385) := by
  refine ⟨rfl, by simp [load_public_data, fallbackTable], ?_, ?_, ?_, ?_⟩
  · show ((fallbackTable now ut ur sn).rows.map (fun r => r.getD 0 (Cell.str "")))
      = (fallbackDates now).map Cell.date
    apply List.ext_getElem
    · simp [fallbackTable]
    · intro i h1 h2
      simp only [fallbackTable, List.getElem_map, List.getElem_range]
      have hi : i < (fallbackDates now).length := by simpa using h2
      simp [List.getD_eq_getElem _ _ hi, List.getElem?_eq_getElem hi]
  · intro d
    simp [fallbackDates, List.mem_filter]
  · intro d
    constructor
    · intro h
      fin_cases h <;> simp
    · rintro ⟨h1, h2, h3, h4, h5⟩
      obtain ⟨y, m, dd⟩ := d
      simp only at h1 h2 h3 h4 h5
      subst h5
      interval_cases y <;> interval_cases m <;> decide
  · intro r hr
    simp only [load_public_data, fallbackTable, List.mem_map, List.mem_range] at hr
    obtain ⟨i, hi, rfl⟩ := hr
    refine ⟨_, _, _, rfl, ?_, ?_, ?_, ?_⟩
    · have h1 := (hut i).1
      have h2 := (hsn i).1
      nlinarith
    · have h1 := (hut i).2
      have h2 := (hsn i).2
      nlinarith
    · have h1 := (hur i).1
      have key : 0 ≤ ur i * sn i ^ 2 := mul_nonneg (by linarith) (sq_nonneg _)
      nlinarith [key]
    · have h1 := (hur i).1
      have h2 := (hur i).2
      have hsq : sn i ^ 2 ≤ 1 := by nlinarith [(hsn i).1, (hsn i).2]
      have key : ur i * sn i ^ 2 ≤ ur i * 1 :=
        mul_le_mul_of_nonneg_left hsq (by linarith)
      nlinarith [key]

/-- A degenerate draw sequence (always `0`) for instantiating the fallback. -/
def constZeroQ : Nat → ℚ := fun _ => 0

/-- A degenerate draw sequence (always `10`) for instantiating the fallback. -/
def constTenQ : Nat → ℚ := fun _ => 10

/-- C6 witness: loading from a missing file on 2026-10-12 with concrete
in-bounds draws yields `success = false` and all 24 fallback rows. -/
theorem loader_fallback_correct_witness :
    ((-5 : ℚ) ≤ 0 ∧ (0 : ℚ) < 28) ∧ ((10 : ℚ) ≤ 10 ∧ (10 : ℚ) < 350)
    ∧ ((-1 : ℚ) ≤ 0 ∧ (0 : ℚ) ≤ 1)
    ∧ (load_public_data none ⟨2026, 10, 12⟩ constZeroQ constTenQ constZeroQ).2 = false
    ∧ (load_public_data none ⟨2026, 10, 12⟩ constZeroQ constTenQ constZeroQ).1.rows.length
        = 24 := by
  have h := loader_fallback_correct ⟨2026, 10, 12⟩ constZeroQ constTenQ constZeroQ
    (fun i => by norm_num [constZeroQ]) (fun i => by norm_num [constTenQ])
    (fun i => by norm_num [constZeroQ])
  refine ⟨by norm_num, by norm_num, by norm_num, h.1, ?_⟩
  rw [h.2.1]
  decide

/-- The normalized GDP rows come out sorted ascending by date. -/
theorem gdpRows_pairwise (kr : RawRow) (now : Date) :
    (gdpRows kr now).Pairwise (fun r s => r.date.toNat ≤ s.date.toNat) := by
  have h := @pairwise_sortBy GdpRow (fun a b : GdpRow => a.date.toNat ≤ b.date.toNat)
    (fun x y => by simpa using Nat.le_total x.date.toNat y.date.toNat)
    (fun x y z hxy hyz => by
      simp only [decide_eq_true_eq] at hxy hyz ⊢
      omega)
    (yearLabels.filterMap (fun y =>
      (kr.cells y).bind (fun v =>
        if Date.le ⟨y, 1, 1⟩ now then some ⟨⟨y, 1, 1⟩, v⟩ else none)))
  unfold gdpRows sortByDate
  exact h.imp (fun hab => by simpa using hab)

/-- C5: on a successful load the normalizer keeps the single `Korea, Rep.`
row, transposes the year columns `1960..2022` into `{date, gdp}` rows with
the date parsed from the 4-digit label, silently drops rows whose gdp cell
failed numeric coercion, drops rows dated after the current date, and
returns the rows sorted ascending by date. -/
theorem normalizer_correct (raw : List RawRow) (kr : RawRow) (now : Date)
    (ut ur sn : Nat → ℚ) (hk : selectKorea raw = [kr]) :
    load_public_data (some raw) now ut ur sn = (gdpTable kr now, true)
    ∧ kr.countryName = "Korea, Rep."
    ∧ (∀ r : GdpRow, r ∈ gdpRows kr now
        ↔ ∃ y, 1960 ≤ y ∧ y ≤ 2022 ∧ kr.cells y = some r.gdp
            ∧ r.date = ⟨y, 1, 1⟩ ∧ Date.le ⟨y, 1, 1⟩ now = true)
    ∧ (gdpRows kr now).Pairwise (fun r s => r.date.toNat ≤ s.date.toNat)
    ∧ (gdpTable kr now).rows
        = (gdpRows kr now).map (fun r => [Cell.date r.date, Cell.num r.gdp]) := by
  refine ⟨?_, ?_, ?_, ?_, rfl⟩
  · simp only [load_public_data]
    rw [hk]
  · have hmem : kr ∈ selectKorea raw := by
      rw [hk]
      exact List.mem_singleton.mpr rfl
    have := List.of_mem_filter hmem
    exact eq_of_beq this
  · intro r
    unfold gdpRows sortByDate
    rw [(sortBy_perm _ _).mem_iff, List.mem_filterMap]
    constructor
    · rintro ⟨y, hy, hf⟩
      rw [yearLabels, List.mem_range'_1] at hy
      rcases hc : kr.cells y with _ | v <;> rw [hc] at hf
      · exact absurd hf (by simp)
      · rw [Option.some_bind] at hf
        by_cases hle : Date.le ⟨y, 1, 1⟩ now = true
        · rw [if_pos hle] at hf
          cases hf
          exact ⟨y, by omega, by omega, hc, rfl, hle⟩
        · rw [if_neg hle] at hf
          exact absurd hf (by simp)
    · rintro ⟨y, h1, h2, hc, hd, hle⟩
      refine ⟨y, ?_, ?_⟩
      · rw [yearLabels, List.mem_range'_1]
        omega
      · rw [hc, Option.some_bind, if_pos hle]
        obtain ⟨rd, rg⟩ := r
        simp only at hd hc ⊢
        rw [hd]
  · exact gdpRows_pairwise kr now

/-- A sample raw table: one non-Korea row and one `Korea, Rep.` row with
two coercible year cells (all other year cells fail coercion). -/
def sampleKr : RawRow :=
  ⟨"Korea, Rep.", fun y => if y = 1960 then some 100 else if y = 1961 then some 200 else none⟩

/-- A sample raw CSV containing `sampleKr`. -/
def sampleRaw : List RawRow := [⟨"France", fun _ => none⟩, sampleKr]

/-- C5 witness: the load succeeds on the sample raw table and returns the
normalized Korea table. -/
theorem normalizer_correct_witness :
    selectKorea sampleRaw = [sampleKr]
    ∧ load_public_data (some sampleRaw) ⟨2026, 10, 12⟩ constZeroQ constTenQ constZeroQ
        = (gdpTable sampleKr ⟨2026, 10, 12⟩, true) := by
  refine ⟨rfl, ?_⟩
  exact (normalizer_correct sampleRaw sampleKr ⟨2026, 10, 12⟩
    constZeroQ constTenQ constZeroQ rfl).1

/-- Sort key of a materialized dataframe row: its `date` cell. -/
def rowDateKey (r : List Cell) : Nat :=
  match r.getD 0 (Cell.str "") with
  | Cell.date d => d.toNat
  | _ => 0

/-- C1: for every year range `[a, b]` with `a ≤ b` inside the normalized
table's year span, the range-filtered view holds exactly the source rows
whose date's year lies in `[a, b]` (both bounds inclusive), in ascending
date order. -/
theorem gdp_year_range_filter_correct (kr : RawRow) (now : Date)
    (a b ymin ymax : Nat) (hab : a ≤ b)
    (hmin : ((gdpRows kr now).map (fun r => r.date.year)).min? = some ymin)
    (hmax : ((gdpRows kr now).map (fun r => r.date.year)).max? = some ymax)
    (ha : ymin ≤ a) (hb : b ≤ ymax) :
    ∃ vt, filterYearT (gdpTable kr now) a b = some vt
      ∧ vt.cols = ["date", "gdp"]
      ∧ (∀ row, row ∈ vt.rows ↔ ∃ r ∈ gdpRows kr now,
          row = [Cell.date r.date, Cell.num r.gdp]
            ∧ a ≤ r.date.year ∧ r.date.year ≤ b)
      ∧ vt.rows.Sublist (gdpTable kr now).rows
      ∧ vt.rows.Pairwise (fun r s => rowDateKey r ≤ rowDateKey s) := by
  refine ⟨{ cols := ["date", "gdp"],
            rows := (gdpTable kr now).rows.filter (rowYearIn 0 a b) },
    rfl, rfl, ?_, List.filter_sublist _, ?_⟩
  · intro row
    constructor
    · intro hrow
      rcases List.mem_filter.mp hrow with ⟨hmem, hp⟩
      rcases List.mem_map.mp hmem with ⟨r, hr, rfl⟩
      have hp' : a ≤ r.date.year ∧ r.date.year ≤ b := by
        simpa [rowYearIn] using hp
      exact ⟨r, hr, rfl, hp'.1, hp'.2⟩
    · rintro ⟨r, hr, rfl, h1, h2⟩
      exact List.mem_filter.mpr
        ⟨List.mem_map_of_mem _ hr, by simp [rowYearIn, h1, h2]⟩
  · apply List.Pairwise.filter
    have h := gdpRows_pairwise kr now
    exact (List.pairwise_map.mpr (h.imp (fun hab => hab)))

/-- C1 witness: the sample table spans `[1960, 1961]`; filtering that full
range succeeds. -/
theorem gdp_year_range_filter_correct_witness :
    ((gdpRows sampleKr ⟨2026, 10, 12⟩).map (fun r => r.date.year)).min? = some 1960
    ∧ ((gdpRows sampleKr ⟨2026, 10, 12⟩).map (fun r => r.date.year)).max? = some 1961
    ∧ (filterYearT (gdpTable sampleKr ⟨2026, 10, 12⟩) 1960 1961).isSome = true := by
  refine ⟨by decide, by decide, ?_⟩
  obtain ⟨vt, h1, -, -, -, -⟩ := gdp_year_range_filter_correct sampleKr ⟨2026, 10, 12⟩
    1960 1961 1960 1961 (by omega) (by decide) (by decide) (by omega) (by omega)
  rw [h1]
  rfl

/-- The normalized GDP table with zero rows (an empty filtered view). -/
def emptyGdpTable : Table := { cols := ["date", "gdp"], rows := [] }

/-- C7: the exporter emits the UTF-8 byte-order marker, then the UTF-8 bytes
of the CSV text of exactly the given table: a header naming the columns and
one delimited line per row, nothing else; an empty table yields a valid
header-only stream; the Korean labels of this program survive the encoding
losslessly (decode ∘ encode is the identity on them). -/
theorem csv_export_correct (t : Table) :
    to_csv t = bomBytes ++ utf8Encode (csvString t)
    ∧ (to_csv t).take 3 = [239, 187, 191]
    ∧ (to_csv t).drop 3 = utf8Encode (csvString t)
    ∧ csvLines t
        = csvLine (t.cols.map csvQuote)
          :: t.rows.map (fun r => csvLine (r.map cellToString))
    ∧ (csvLines t).length = 1 + t.rows.length
    ∧ (t.rows = [] → csvString t = csvLine (t.cols.map csvQuote) ++ "\n")
    ∧ (∀ s ∈ userEvents ++ userRegions ++ userTypes ++ ["곳"],
        utf8Decode (utf8Encode s) = some s.data) := by
  refine ⟨rfl, ?_, ?_, rfl, by simp [csvLines, Nat.add_comm], ?_, by decide⟩
  · simp [to_csv, bomBytes]
  · simp [to_csv, bomBytes]
  · intro h
    simp [csvString, csvLines, h, String.join]

/-- C7 witness: exporting the empty GDP view yields the header-only stream
`BOM ++ "date,gdp\n"`. -/
theorem csv_export_correct_witness :
    (emptyGdpTable.rows = [])
    ∧ csvString emptyGdpTable = csvLine (emptyGdpTable.cols.map csvQuote) ++ "\n"
    ∧ to_csv emptyGdpTable = bomBytes ++ utf8Encode "date,gdp\n" := by
  refine ⟨rfl, (csv_export_correct emptyGdpTable).2.2.2.2.2.1 rfl, ?_⟩
  decide

/-- C4 witness: concrete instantiation — selecting only `태풍 카눈` keeps
exactly 4 rows. -/
theorem disaster_event_filter_correct_witness :
    (filterEvents (load_user_data ⟨2026, 1, 1⟩) ["태풍 카눈"]).length = 4 :=
  (disaster_event_filter_correct ⟨2026, 1, 1⟩ ["태풍 카눈"]).2.2.1

/-- C9 witness: concrete instantiation of the region aggregation. -/
theorem region_aggregation_correct_witness :
    regionTotals (load_user_data ⟨2026, 1, 2⟩) = [("강원", 10), ("충북", 32)] :=
  (region_aggregation_correct ⟨2026, 1, 2⟩).1

/-- C10 witness: the static dataset agrees at a pre-2025 and a post-2025
call time. -/
theorem static_dataset_time_independent_witness :
    load_user_data ⟨2024, 5, 5⟩ = load_user_data ⟨2026, 5, 5⟩ :=
  (static_dataset_time_independent ⟨2024, 5, 5⟩ ⟨2026, 5, 5⟩).1

/-- Edge case noted by the spec: a single-row table still supports the
moving-average computation (the window clamps to the one available period). -/
theorem rolling_mean3_single_row :
    rollingMean3 [7] = [7] := by
  norm_num [rollingMean3, trailingWindow3, List.range_succ]
